import Mathlib

/-!
Verification of the spaced-repetition core of the AI-Vocabulary-Learning-System
backend against its natural-language specification.

The Python sources are shallowly embedded:
* `SRS`    — `app/core/srs_engine.py` (pure SM-2 style scheduler);
* `Review` — `app/services/review_service.py` (session orchestrator);
* `Pool`   — `app/services/question_pregenerator_service.py` and the
             smart-reuse pool in `app/services/vocabulary_service.py`;
* `MCQ`    — `app/services/question_generator/mcq_strategy.py`.

Python floats are modelled as rationals, `datetime` values as integers
(days), and `int` milliseconds as integers.  Randomness (weighted choice,
sampling, shuffling) is parametrised explicitly.  Fallible code returns
`Except`.
-/

namespace SRS

/-- `ReviewQuality` from `srs_engine.py`: AGAIN=0, HARD=1, GOOD=2, EASY=3. -/
inductive ReviewQuality where
  | AGAIN
  | HARD
  | GOOD
  | EASY
deriving DecidableEq, Repr

/-- The `IntEnum` value of a quality. -/
def ReviewQuality.val : ReviewQuality → ℤ
  | .AGAIN => 0
  | .HARD => 1
  | .GOOD => 2
  | .EASY => 3

/-- `SRSState` dataclass: easiness factor, interval (days), repetitions,
next/last review dates (days, `datetime` modelled as ℤ). -/
structure SRSState where
  easiness_factor : ℚ
  interval : ℤ
  repetitions : ℤ
  next_review_date : ℤ
  last_review_date : Option ℤ
deriving DecidableEq, Repr

/-- `SRSState.__post_init__`: clamp `easiness_factor` into [1.3, 2.5] and
default a missing `next_review_date` to `now` (`datetime.utcnow()`). -/
def mkSRSState (ef : ℚ) (interval repetitions : ℤ)
    (next : Option ℤ) (last : Option ℤ) (now : ℤ) : SRSState :=
  { easiness_factor :=
      if ef < 13/10 then 13/10 else if ef > 5/2 then 5/2 else ef
    interval := interval
    repetitions := repetitions
    next_review_date := next.getD now
    last_review_date := last }

/-- `MIN_EASINESS_FACTOR`. -/
def MIN_EASINESS_FACTOR : ℚ := 13/10

/-- `MAX_EASINESS_FACTOR`. -/
def MAX_EASINESS_FACTOR : ℚ := 5/2

/-- `DEFAULT_EASINESS_FACTOR`. -/
def DEFAULT_EASINESS_FACTOR : ℚ := 5/2

/-- Python's `round`: round half to even (banker's rounding), as used in
`_calculate_new_interval`. -/
def pyRound (x : ℚ) : ℤ :=
  let f := ⌊x⌋
  let r := x - f
  if r < 1/2 then f
  else if 1/2 < r then f + 1
  else if f % 2 = 0 then f else f + 1

/-- Python's `int()` on a float: truncation toward zero. -/
def ratTrunc (x : ℚ) : ℤ :=
  if x < 0 then ⌈x⌉ else ⌊x⌋

/-- The Speed Adjustment block at the top of `update_after_review`:
promote GOOD→EASY on a fast (<5s) correct answer, demote EASY→GOOD and
GOOD→HARD on a slow (>15s) one; only applied when `quality ≥ GOOD` and a
positive time is supplied. -/
def adjustQuality (review_quality : ReviewQuality)
    (time_spent_seconds : ℚ) : ReviewQuality :=
  if review_quality.val ≥ ReviewQuality.GOOD.val then
    if time_spent_seconds > 0 then
      if time_spent_seconds < 5 then
        if review_quality = .GOOD then .EASY else review_quality
      else if time_spent_seconds > 15 then
        if review_quality = .EASY then .GOOD
        else if review_quality = .GOOD then .HARD
        else review_quality
      else review_quality
    else review_quality
  else review_quality

/-- `SRSEngine._calculate_new_easiness_factor`: AGAIN −0.2, HARD −0.15,
GOOD unchanged, EASY +0.15; clamped into [1.3, 2.5]. -/
def calculateNewEasinessFactor (current_ef : ℚ) (quality : ReviewQuality) : ℚ :=
  let new_ef :=
    match quality with
    | .AGAIN => current_ef - 2/10
    | .HARD => current_ef - 15/100
    | .GOOD => current_ef
    | .EASY => current_ef + 15/100
  min MAX_EASINESS_FACTOR (max MIN_EASINESS_FACTOR new_ef)

/-- `SRSEngine._calculate_new_interval`: AGAIN → 0; HARD → 0 when the (new)
repetitions counter is 0 and otherwise `max 1 (int(interval * 0.5))`;
GOOD/EASY → 0/1/6 for repetitions 0/1/2 and otherwise
`max 1 (round(interval * ef * multiplier))` with multiplier 1.3 for EASY
and 1.0 for GOOD. -/
def calculateNewInterval (current_interval : ℤ) (repetitions : ℤ)
    (easiness_factor : ℚ) (quality : ReviewQuality) : ℤ :=
  if quality = .AGAIN then 0
  else if quality = .HARD then
    if repetitions = 0 then 0
    else max 1 (ratTrunc ((current_interval : ℚ) * (1/2)))
  else
    if repetitions = 0 then 0
    else if repetitions = 1 then 1
    else if repetitions = 2 then 6
    else
      let multiplier : ℚ := if quality = .EASY then 13/10 else 1
      max 1 (pyRound ((current_interval : ℚ) * easiness_factor * multiplier))

/-- `SRSEngine.update_after_review`: speed-adjust the quality, update the
easiness factor from the adjusted quality, reset or bump repetitions,
recompute the interval from the new repetitions and new EF, and set the
next review date `review_time + interval` days. -/
def updateAfterReview (current_state : SRSState) (review_quality : ReviewQuality)
    (review_time : ℤ) (time_spent_seconds : ℚ) : SRSState :=
  let adjusted_quality := adjustQuality review_quality time_spent_seconds
  let new_ef := calculateNewEasinessFactor current_state.easiness_factor adjusted_quality
  let new_repetitions :=
    if adjusted_quality.val < ReviewQuality.GOOD.val then 0
    else current_state.repetitions + 1
  let new_interval :=
    calculateNewInterval current_state.interval new_repetitions new_ef adjusted_quality
  { easiness_factor := new_ef
    interval := new_interval
    repetitions := new_repetitions
    next_review_date := review_time + new_interval
    last_review_date := some review_time }

/-- `create_initial_state`: EF 2.5, interval 0, repetitions 0, next review
at the supplied date. -/
def createInitialState (initial_review_date : ℤ) : SRSState :=
  mkSRSState DEFAULT_EASINESS_FACTOR 0 0 (some initial_review_date) none
    initial_review_date

/-- `simulate_review_sequence`: replay a list of qualities, reviewing each
time exactly at the previously scheduled `next_review_date`, with no
latency signal (`time_spent_seconds` defaults to 0). -/
def simulateReviewSequence (initial_state : SRSState) :
    List ReviewQuality → List SRSState
  | [] => []
  | quality :: rest =>
    let current_time := initial_state.next_review_date
    let new_state := updateAfterReview initial_state quality current_time 0
    new_state :: simulateReviewSequence new_state rest

end SRS

namespace Review
/-- A `Vocabulary` row: identity plus its SRS columns
(`app/models/vocabulary.py`). -/
structure Vocabulary where
  id : ℕ
  user_id : ℕ
  easiness_factor : ℚ
  interval : ℤ
  repetitions : ℤ
  next_review_date : ℤ
  last_review_date : Option ℤ
deriving DecidableEq, Repr

/-- A `GeneratedQuestion` row (`app/models/generated_question.py`); the
`question_data` JSON snapshot is represented by its mandatory
`correct_answer` key and optional `explanation` key. -/
structure GeneratedQuestion where
  question_instance_id : ℕ
  session_id : Option ℕ
  user_id : ℕ
  vocabulary_id : ℕ
  question_type : String
  difficulty : String
  correct_answer : String
  explanation : Option String
  is_used : Bool
  user_answer : Option String
  is_correct : Option Bool
  time_spent_ms : Option ℤ
  answer_change_count : Option ℤ
deriving DecidableEq, Repr

/-- A `ReviewSession` row (`app/models/review_session.py`). -/
structure ReviewSession where
  id : ℕ
  user_id : ℕ
  status : String
  total_questions : ℕ
  correct_count : ℕ
  completed_at : Option ℤ
deriving DecidableEq, Repr

/-- The persistent store seen by `ReviewService`. -/
structure DB where
  vocabularies : List Vocabulary
  sessions : List ReviewSession
  questions : List GeneratedQuestion
deriving DecidableEq, Repr

/-- Update the first element satisfying `p` in place, as mutating one ORM
object loaded from a table does. -/
def updateFirst {α : Type} (p : α → Bool) (f : α → α) : List α → List α
  | [] => []
  | x :: xs => if p x then f x :: xs else x :: updateFirst p f xs

/-- The quality-mapping block of `ReviewService._update_vocabulary_srs`:
incorrect (or unanswered) → AGAIN; correct and under 5 s → EASY; correct
and over 15 s → HARD; otherwise GOOD.  `time_seconds` is
`(time_spent_ms or 0) / 1000`. -/
def deriveQuality (is_correct : Bool) (time_spent_ms : Option ℤ) : SRS.ReviewQuality :=
  let time_seconds : ℚ := ((time_spent_ms.getD 0 : ℤ) : ℚ) / 1000
  if is_correct then
    if time_seconds < 5 then .EASY
    else if time_seconds > 15 then .HARD
    else .GOOD
  else .AGAIN

/-- `ReviewService._update_vocabulary_srs`: look the vocabulary up (doing
nothing when absent), derive the quality, rebuild the `SRSState`, run the
engine and write the new state back onto the vocabulary row. -/
def updateVocabularySRS (db : DB) (question : GeneratedQuestion) (now : ℤ) : DB :=
  match db.vocabularies.find? (fun v => v.id == question.vocabulary_id) with
  | none => db
  | some vocab =>
    let time_seconds : ℚ := ((question.time_spent_ms.getD 0 : ℤ) : ℚ) / 1000
    let quality := deriveQuality (question.is_correct == some true) question.time_spent_ms
    let current_state := SRS.mkSRSState vocab.easiness_factor vocab.interval
      vocab.repetitions (some vocab.next_review_date) none now
    let new_state := SRS.updateAfterReview current_state quality now time_seconds
    let vocab' := { vocab with
      easiness_factor := new_state.easiness_factor
      interval := new_state.interval
      repetitions := new_state.repetitions
      next_review_date := new_state.next_review_date
      last_review_date := some now }
    { db with vocabularies :=
        (updateFirst (fun v => v.id == question.vocabulary_id) (fun _ => vocab')
          db.vocabularies) }

/-- The result dictionary returned by `submit_answer`. -/
structure SubmitResult where
  question_instance_id : ℕ
  is_correct : Bool
  correct_answer : String
  explanation : Option String
deriving DecidableEq, Repr

/-- Case-insensitive whitespace-trimmed normalisation:
`s.strip().lower()`. -/
def normalizeAnswer (s : String) : String := s.trim.toLower

/-- `ReviewService.submit_answer`: look the question instance up by id
(raising `ValueError` when absent), evaluate the answer against the
snapshot's `correct_answer`, overwrite the answer/telemetry fields on the
instance, and return the evaluation.  No check of session status or of a
previous answer is performed. -/
def submitAnswer (db : DB) (question_instance_id : ℕ) (user_answer : String)
    (time_spent_ms : ℤ) (answer_change_count : ℤ) :
    Except String (SubmitResult × DB) :=
  match db.questions.find? (fun q => q.question_instance_id == question_instance_id) with
  | none => .error "Question instance not found"
  | some question =>
    let is_correct := normalizeAnswer user_answer == normalizeAnswer question.correct_answer
    let question' := { question with
      user_answer := some user_answer
      is_correct := some is_correct
      time_spent_ms := some time_spent_ms
      answer_change_count := some answer_change_count }
    .ok ({ question_instance_id := question_instance_id,
           is_correct := is_correct,
           correct_answer := question.correct_answer,
           explanation := question.explanation },
         { db with questions :=
             (updateFirst (fun q => q.question_instance_id == question_instance_id)
               (fun _ => question') db.questions) })

/-- The summary dictionary returned by `complete_session`. -/
structure SessionSummary where
  session_id : ℕ
  total_questions : ℕ
  correct_count : ℕ
  accuracy : ℚ
  completed_at : ℤ
deriving DecidableEq, Repr

/-- `ReviewService.complete_session`: load the session (raising
`ValueError` when absent), apply `_update_vocabulary_srs` for every
answered question of the session, mark the session completed and return
the summary.  The current status of the session is never consulted. -/
def completeSession (db : DB) (session_id : ℕ) (now : ℤ) :
    Except String (SessionSummary × DB) :=
  match db.sessions.find? (fun s => s.id == session_id) with
  | none => .error "Session not found"
  | some sess =>
    let session_questions := db.questions.filter (fun q => q.session_id == some session_id)
    let total_questions := session_questions.length
    let correct_count := (session_questions.filter (fun q => q.is_correct == some true)).length
    let db1 := session_questions.foldl
      (fun d q => if q.is_correct.isSome then updateVocabularySRS d q now else d) db
    let sess' := { sess with
      status := "completed"
      correct_count := correct_count
      completed_at := some now }
    let db2 := { db1 with
      sessions := (updateFirst (fun s => s.id == session_id) (fun _ => sess') db1.sessions) }
    .ok ({ session_id := session_id,
           total_questions := total_questions,
           correct_count := correct_count,
           accuracy := if total_questions > 0 then
             (correct_count : ℚ) / (total_questions : ℚ) else 0,
           completed_at := now }, db2)

end Review

namespace Review
/-- The question-data snapshot produced by a generator strategy, reduced
to the keys the review service consumes. -/
structure QuestionData where
  question_type : String
  correct_answer : String
  explanation : Option String
  confusion_pair_group : Option String
deriving DecidableEq, Repr

/-- The question-producing capability invoked by
`QuestionGeneratorFactory.generate_multiple_questions` during session
creation: given a vocabulary, a count, a difficulty and the distractor
pool it returns question snapshots, or raises. -/
def Generator : Type :=
  Vocabulary → ℕ → String → List Vocabulary → Except String (List QuestionData)

/-- `ReviewService._calculate_difficulty`: EASY for new items, MEDIUM
below 3 repetitions, HARD otherwise. -/
def calculateDifficulty (vocabulary : Vocabulary) : String :=
  if vocabulary.repetitions = 0 then "easy"
  else if vocabulary.repetitions < 3 then "medium"
  else "hard"

/-- Stable insertion for `ORDER BY next_review_date ASC`. -/
def insertByNextReview (v : Vocabulary) : List Vocabulary → List Vocabulary
  | [] => [v]
  | w :: ws =>
    if w.next_review_date ≤ v.next_review_date then w :: insertByNextReview v ws
    else v :: w :: ws

/-- Stable sort by ascending `next_review_date`. -/
def orderByNextReviewAsc : List Vocabulary → List Vocabulary
  | [] => []
  | v :: vs => insertByNextReview v (orderByNextReviewAsc vs)

/-- `ReviewService._get_vocabularies_for_review`: the user's
vocabularies, filtered to due (`next_review_date <= now`) or new
(`repetitions == 0`) ones by mode, ordered by `next_review_date`
ascending and capped. -/
def getVocabulariesForReview (db : DB) (user_id : ℕ) (mode : String)
    (max_questions : ℕ) (now : ℤ) : List Vocabulary :=
  let base := db.vocabularies.filter (fun v => v.user_id == user_id)
  let filtered :=
    if mode == "due" then base.filter (fun v => decide (v.next_review_date ≤ now))
    else if mode == "new" then base.filter (fun v => v.repetitions == 0)
    else base
  (orderByNextReviewAsc filtered).take max_questions

/-- Whether a stored question is an unused pooled instance for the given
vocabulary (`vocabulary_id` matches, `session_id IS NULL`,
`is_used = False`). -/
def inPool (vocabulary_id : ℕ) (q : GeneratedQuestion) : Bool :=
  q.vocabulary_id == vocabulary_id && q.session_id == none && !q.is_used

/-- Mark the first `n` pooled rows matching `p` with the session id and
`is_used = True`, in place (the ORM objects selected by the limited query
are mutated). -/
def markPool (p : GeneratedQuestion → Bool) (session_id : ℕ) :
    ℕ → List GeneratedQuestion → List GeneratedQuestion
  | 0, l => l
  | _ + 1, [] => []
  | n + 1, q :: l =>
    if p q then
      { q with session_id := some session_id, is_used := true } ::
        markPool p session_id n l
    else q :: markPool p session_id (n + 1) l

/-- `ReviewService._get_questions_for_vocabulary`: take up to `count`
unused pooled questions (marking them with the session), then generate
the shortfall through the factory; a generation error propagates.
Returns the questions handed to the session, the updated question table,
the freshly created (not yet persisted) questions, and the next fresh
instance id. -/
def getQuestionsForVocabulary (gen : Generator) (questions : List GeneratedQuestion)
    (session_id user_id : ℕ) (vocabulary : Vocabulary) (count : ℕ)
    (distractors : List Vocabulary) (next_instance_id : ℕ) :
    Except String
      (List GeneratedQuestion × List GeneratedQuestion × List GeneratedQuestion × ℕ) :=
  let pool_questions :=
    ((questions.filter (inPool vocabulary.id)).take count).map (fun q =>
      { q with session_id := some session_id, is_used := true })
  let questions' := markPool (inPool vocabulary.id) session_id count questions
  let remaining := count - pool_questions.length
  if remaining > 0 then
    let difficulty := calculateDifficulty vocabulary
    match gen vocabulary remaining difficulty distractors with
    | .error e => .error e
    | .ok qdatas =>
      let new_questions := (List.enumFrom next_instance_id qdatas).map (fun p =>
        { question_instance_id := p.1,
          session_id := some session_id,
          user_id := user_id,
          vocabulary_id := vocabulary.id,
          question_type := p.2.question_type,
          difficulty := difficulty,
          correct_answer := p.2.correct_answer,
          explanation := p.2.explanation,
          is_used := true,
          user_answer := none,
          is_correct := none,
          time_spent_ms := none,
          answer_change_count := none })
      .ok (pool_questions ++ new_questions, questions', new_questions,
        next_instance_id + qdatas.length)
  else
    .ok (pool_questions, questions', [], next_instance_id)

/-- The per-vocabulary acquisition loop of `create_session` step 3: fold
`_get_questions_for_vocabulary` over the selected vocabularies, threading
the question table and the fresh-id counter; the first generation error
aborts the loop. -/
def acquireAll (gen : Generator) (session_id user_id : ℕ) (qpv : ℕ)
    (distractors : List Vocabulary) :
    List Vocabulary → List GeneratedQuestion → ℕ →
    Except String
      (List GeneratedQuestion × List GeneratedQuestion × List GeneratedQuestion × ℕ)
  | [], questions, next_id => .ok ([], questions, [], next_id)
  | v :: vs, questions, next_id =>
    match getQuestionsForVocabulary gen questions session_id user_id v qpv
        distractors next_id with
    | .error e => .error e
    | .ok (qs, questions', new_qs, next_id') =>
      match acquireAll gen session_id user_id qpv distractors vs questions' next_id' with
      | .error e => .error e
      | .ok (rest, questions'', new_rest, next_id'') =>
        .ok (qs ++ rest, questions'', new_qs ++ new_rest, next_id'')

/-- `ReviewService.create_session`: select the vocabularies for the mode;
with no candidates persist an immediately-completed empty session;
otherwise create an `in_progress` session, acquire the questions of every
vocabulary (the selected set doubling as the distractor pool), shuffle
them globally, and commit.  An exception anywhere before the final commit
leaves the store unchanged, which the `Except` result models: the updated
database is only produced on success. -/
def createSession (gen : Generator)
    (shuffle : List GeneratedQuestion → List GeneratedQuestion) (db : DB)
    (user_id : ℕ) (mode : String) (max_vocabularies questions_per_vocab : ℕ)
    (now : ℤ) (session_id next_instance_id : ℕ) :
    Except String (ReviewSession × List GeneratedQuestion × DB) :=
  let vocabularies := getVocabulariesForReview db user_id mode max_vocabularies now
  if vocabularies.isEmpty then
    let empty_session : ReviewSession :=
      { id := session_id, user_id := user_id, status := "completed",
        total_questions := 0, correct_count := 0, completed_at := none }
    .ok (empty_session, [],
      { db with sessions := db.sessions ++ [empty_session] })
  else
    let total_questions := vocabularies.length * questions_per_vocab
    let review_session : ReviewSession :=
      { id := session_id, user_id := user_id, status := "in_progress",
        total_questions := total_questions, correct_count := 0, completed_at := none }
    let distractors := vocabularies
    match acquireAll gen session_id user_id questions_per_vocab distractors
        vocabularies db.questions next_instance_id with
    | .error e => .error e
    | .ok (all_questions, questions', new_questions, _) =>
      let shuffled := shuffle all_questions
      .ok (review_session, shuffled,
        { db with
          sessions := db.sessions ++ [review_session],
          questions := questions' ++ new_questions })

end Review

namespace Pool
/-- `VocabularyService.MAX_POOL_SIZE`. -/
def MAX_POOL_SIZE : ℕ := 5

/-- `VocabularyService.USAGE_THRESHOLD`. -/
def USAGE_THRESHOLD : ℕ := 3

/-- `QUESTIONS_PER_VOCAB` from `question_pregenerator_service.py`. -/
def QUESTIONS_PER_VOCAB : ℕ := 10

/-- A cached multiple-choice `GeneratedQuestion` row belonging to one
vocabulary, reduced to the fields the smart-reuse policy reads. -/
structure CachedQuestion where
  id : ℕ
  usage_count : ℕ
  created_at : ℤ
deriving DecidableEq, Repr

/-- The random draws of one pass of the smart-reuse loop in
`VocabularyService.create_quiz_session`, plus the outcome of the external
AI call, made explicit: `pick` selects among the shuffled reuse
candidates (any index, covering every weighted-random outcome),
`recycle_ids` stands for the ids drawn by
`random.sample(remaining_questions, min(len, 2))`, and `gen_ok` tells
whether `ai_provider.generate_question` succeeds. -/
structure AcquireChoice where
  pick : ℕ
  recycle_ids : List ℕ
  gen_ok : Bool
  new_id : ℕ
  new_created_at : ℤ
deriving Repr

/-- Python's `min(cached_questions, key=lambda q: q.created_at)`: the
first row with the smallest creation time. -/
def oldest : CachedQuestion → List CachedQuestion → CachedQuestion
  | q, [] => q
  | q, r :: rs => if r.created_at < q.created_at then oldest r rs else oldest q rs

/-- One pass of the per-vocabulary smart-reuse step of
`create_quiz_session` (lines 1001-1114 of `vocabulary_service.py`),
restricted to its effect on the persisted pool of one vocabulary:
reuse a candidate with `usage_count < USAGE_THRESHOLD` (incrementing its
count); otherwise evict the oldest row when the pool is at
`MAX_POOL_SIZE`, recycle the sampled rows (`usage_count = 0`) and append
a freshly generated row with `usage_count = 1`; when the pool is empty,
only generate.  A failed generation adds nothing (the exception is caught
and the vocabulary skipped) while the already-committed
eviction/recycling stays. -/
def acquire (pool : List CachedQuestion) (c : AcquireChoice) : List CachedQuestion :=
  match pool with
  | [] =>
    if c.gen_ok then [{ id := c.new_id, usage_count := 1, created_at := c.new_created_at }]
    else []
  | q0 :: rest =>
    let cached := q0 :: rest
    let candidates := cached.filter (fun q => q.usage_count < USAGE_THRESHOLD)
    match candidates with
    | [] =>
      let after_evict :=
        if MAX_POOL_SIZE ≤ cached.length then
          cached.filter (fun q => q.id != (oldest q0 rest).id)
        else cached
      let recycled := after_evict.map (fun q =>
        if c.recycle_ids.contains q.id then { q with usage_count := 0 } else q)
      if c.gen_ok then
        recycled ++ [{ id := c.new_id, usage_count := 1, created_at := c.new_created_at }]
      else recycled
    | c0 :: cs =>
      let chosen := (c0 :: cs).get ⟨c.pick % (c0 :: cs).length, Nat.mod_lt _ (Nat.succ_pos _)⟩
      cached.map (fun q =>
        if q.id == chosen.id then { q with usage_count := q.usage_count + 1 } else q)

/-- `QuestionPreGeneratorService.pre_generate_for_vocabulary` (success
path): persist `count` freshly generated rows for the vocabulary, with no
pool-size check at all. -/
def preGenerate (pool : List CachedQuestion) (first_id : ℕ) (created : ℤ)
    (count : ℕ) : List CachedQuestion :=
  pool ++ (List.range count).map (fun i =>
    { id := first_id + i, usage_count := 0, created_at := created })

end Pool

namespace MCQ
/-- `PREPOSITION_CONFUSION_GROUPS` from `mcq_strategy.py`. -/
def PREPOSITION_CONFUSION_GROUPS : List (String × List String) :=
  [("at", ["in", "on", "to"]),
   ("in", ["at", "on", "into"]),
   ("on", ["at", "in", "onto"]),
   ("for", ["since", "from", "to"]),
   ("since", ["for", "from"]),
   ("to", ["for", "at", "into"])]

/-- Dictionary lookup `word in PREPOSITION_CONFUSION_GROUPS`. -/
def confusionGroup (word : String) : Option (List String) :=
  (PREPOSITION_CONFUSION_GROUPS.find? (fun p => p.1 == word)).map (fun p => p.2)

/-- The question-data snapshot built by `MCQStrategy.generate`. -/
structure MCQSnapshot where
  question_text : String
  correct_answer : String
  options : List String
  context_sentence : String
  explanation : String
  confusion_pair_group : Option String
deriving DecidableEq, Repr

/-- Result of `MCQStrategy.generate`: either the MCQ snapshot, or the
delegation to `MeaningQuestionStrategy` when no usable context sentence
exists. -/
inductive MCQResult where
  | delegated
  | mcq (snapshot : MCQSnapshot)
deriving DecidableEq, Repr

/-- The options of an MCQ result, `none` for a delegated one. -/
def MCQResult.optionList : MCQResult → Option (List String)
  | .delegated => none
  | .mcq s => some s.options

/-- `MCQStrategy.generate`: with no (or empty) stored context sentence,
delegate; otherwise blank the word out of the first context sentence,
build the options from the word plus at most three confusion-pair words
(or, failing a table entry, the `sample` drawn by
`random.sample(distractor_words, min(3, len))` from the other items'
words), pad with the literal string "other" up to four options, and
shuffle. -/
def generate (word : String) (contexts : List String)
    (sample : List String) (shuffle : List String → List String) : MCQResult :=
  match contexts.head? with
  | none => .delegated
  | some example_sentence =>
    if example_sentence = "" then .delegated
    else
      let context_sentence := example_sentence.replace word "___"
      let base_options :=
        match confusionGroup word with
        | some confusion_words => [word] ++ confusion_words.take 3
        | none => [word] ++ sample
      let padded := base_options ++ List.replicate (4 - base_options.length) "other"
      let options := shuffle padded
      .mcq { question_text := context_sentence
             correct_answer := word
             options := options
             context_sentence := context_sentence
             explanation := "Tu dung la " ++ word ++ ". " ++ example_sentence
             confusion_pair_group :=
               if (confusionGroup word).isSome then some ("preposition_" ++ word)
               else none }

end MCQ

/-- Database as it stands after a first successful `complete_session`
call: session 1 already has status `completed`, its single question was
answered correctly in 3000 ms, and the scheduler transition has been
applied once (vocabulary 1 moved from the initial state to
`repetitions = 1`, `interval = 1`). -/
def C1_db : Review.DB :=
  { vocabularies := [{ id := 1, user_id := 1, easiness_factor := 5/2, interval := 1,
                       repetitions := 1, next_review_date := 11,
                       last_review_date := some 10 }],
    sessions := [{ id := 1, user_id := 1, status := "completed", total_questions := 1,
                   correct_count := 1, completed_at := some 10 }],
    questions := [{ question_instance_id := 7, session_id := some 1, user_id := 1,
                    vocabulary_id := 1, question_type := "multiple_choice",
                    difficulty := "easy", correct_answer := "at", explanation := none,
                    is_used := true, user_answer := some "at", is_correct := some true,
                    time_spent_ms := some 3000, answer_change_count := some 0 }] }

/-- First vocabulary of the C3 database: due at time 0 and owned by
user 1. -/
def C3_vocab1 : Review.Vocabulary :=
  { id := 1, user_id := 1, easiness_factor := 5/2, interval := 0,
    repetitions := 0, next_review_date := 0, last_review_date := none }

/-- Database for C3: two due vocabularies, empty question pool. -/
def C3_db : Review.DB :=
  { vocabularies := [C3_vocab1,
      { id := 2, user_id := 1, easiness_factor := 5/2, interval := 0,
        repetitions := 0, next_review_date := 1, last_review_date := none }],
    sessions := [], questions := [] }

/-- A generator that raises for vocabulary 1 and succeeds for every other
vocabulary. -/
def C3_gen : Review.Generator := fun v count _ _ =>
  if v.id == 1 then .error "GenerationError"
  else .ok (List.replicate count
    { question_type := "multiple_choice", correct_answer := "word",
      explanation := none, confusion_pair_group := none })

/-- A full pool of five exhausted instances (usage count at the
threshold). -/
def C4_pool : List Pool.CachedQuestion :=
  [{ id := 1, usage_count := 3, created_at := 0 },
   { id := 2, usage_count := 3, created_at := 1 },
   { id := 3, usage_count := 3, created_at := 2 },
   { id := 4, usage_count := 3, created_at := 3 },
   { id := 5, usage_count := 3, created_at := 4 }]

/-- Database for the C10 witness: one completed session whose single
question was already answered incorrectly. -/
def C10_db : Review.DB :=
  { vocabularies := [],
    sessions := [{ id := 1, user_id := 1, status := "completed",
                   total_questions := 1, correct_count := 0,
                   completed_at := some 10 }],
    questions := [{ question_instance_id := 7, session_id := some 1,
                    user_id := 1, vocabulary_id := 1,
                    question_type := "multiple_choice", difficulty := "medium",
                    correct_answer := "at", explanation := none,
                    is_used := true, user_answer := some "on",
                    is_correct := some false, time_spent_ms := some 20000,
                    answer_change_count := some 0 }] }

namespace SRS
lemma floor_le_pyRound (x : ℚ) : ⌊x⌋ ≤ pyRound x := by
  unfold pyRound
  dsimp only
  split_ifs <;> omega

lemma pyRound_le_floor_add_one (x : ℚ) : pyRound x ≤ ⌊x⌋ + 1 := by
  unfold pyRound
  dsimp only
  split_ifs <;> omega

lemma pyRound_mono {x y : ℚ} (h : x ≤ y) : pyRound x ≤ pyRound y := by
  rcases lt_or_le ⌊x⌋ ⌊y⌋ with hf | hf
  · have h1 := pyRound_le_floor_add_one x
    have h2 := floor_le_pyRound y
    omega
  · have hfe : ⌊x⌋ = ⌊y⌋ := le_antisymm (Int.floor_mono h) hf
    have hr : x - (⌊y⌋ : ℚ) ≤ y - (⌊y⌋ : ℚ) := by linarith
    unfold pyRound
    dsimp only
    rw [hfe]
    split_ifs <;> first | omega | (exfalso; linarith)

lemma pyRound_nonpos {x : ℚ} (h : x ≤ 0) : pyRound x ≤ 0 := by
  have h1 := pyRound_mono h
  have h0 : pyRound 0 = 0 := by
    unfold pyRound
    norm_num
  omega

lemma calculateNewEasinessFactor_bounds (ef : ℚ) (q : ReviewQuality) :
    13/10 ≤ calculateNewEasinessFactor ef q ∧ calculateNewEasinessFactor ef q ≤ 5/2 := by
  unfold calculateNewEasinessFactor MAX_EASINESS_FACTOR MIN_EASINESS_FACTOR
  exact ⟨le_min (by norm_num) (le_max_left _ _), min_le_left _ _⟩

lemma calculateNewEasinessFactor_mono_quality (ef : ℚ) {q q' : ReviewQuality}
    (h : (match q with
          | .AGAIN => ef - 2/10
          | .HARD => ef - 15/100
          | .GOOD => ef
          | .EASY => ef + 15/100) ≤
         (match q' with
          | .AGAIN => ef - 2/10
          | .HARD => ef - 15/100
          | .GOOD => ef
          | .EASY => ef + 15/100)) :
    calculateNewEasinessFactor ef q ≤ calculateNewEasinessFactor ef q' := by
  unfold calculateNewEasinessFactor
  exact min_le_min (le_refl _) (max_le_max (le_refl _) h)

lemma calculateNewInterval_good_nonneg (i reps : ℤ) (ef : ℚ) :
    0 ≤ calculateNewInterval i reps ef .GOOD := by
  unfold calculateNewInterval
  split_ifs <;> try omega
  all_goals exact le_trans (by norm_num) (le_max_left 1 _)

lemma calculateNewInterval_good_le_easy (i reps : ℤ) {efG efE : ℚ}
    (hef : efG ≤ efE) (hG : 13/10 ≤ efG) :
    calculateNewInterval i reps efG .GOOD ≤ calculateNewInterval i reps efE .EASY := by
  unfold calculateNewInterval
  simp only [reduceCtorEq, if_false, if_neg]
  split_ifs <;> try omega
  have hE : (13/10 : ℚ) ≤ efE := le_trans hG hef
  rcases le_or_lt 0 (i : ℚ) with hi | hi
  · have h1 : (i : ℚ) * efG * 1 ≤ (i : ℚ) * efE * (13/10) := by
      have ha : (i : ℚ) * efG ≤ (i : ℚ) * efE := by
        exact mul_le_mul_of_nonneg_left hef hi
      have hb : (i : ℚ) * efE ≤ (i : ℚ) * efE * (13/10) := by
        have hnn : 0 ≤ (i : ℚ) * efE := mul_nonneg hi (by linarith)
        nlinarith
      calc (i : ℚ) * efG * 1 = (i : ℚ) * efG := by ring
        _ ≤ (i : ℚ) * efE := ha
        _ ≤ (i : ℚ) * efE * (13/10) := hb
    exact max_le_max (le_refl 1) (pyRound_mono h1)
  · have hg : (i : ℚ) * efG * 1 ≤ 0 := by nlinarith
    have he : (i : ℚ) * efE * (13/10) ≤ 0 := by nlinarith
    have h2 := pyRound_nonpos hg
    have h3 := pyRound_nonpos he
    omega




lemma calculateNewEasinessFactor_good_le_easy (ef : ℚ) :
    calculateNewEasinessFactor ef .GOOD ≤ calculateNewEasinessFactor ef .EASY :=
  calculateNewEasinessFactor_mono_quality ef (by dsimp only; linarith)

lemma calculateNewEasinessFactor_hard_le_good (ef : ℚ) :
    calculateNewEasinessFactor ef .HARD ≤ calculateNewEasinessFactor ef .GOOD :=
  calculateNewEasinessFactor_mono_quality ef (by dsimp only; linarith)

lemma updateAfterReview_good_le_easy_of_noadjust (s : SRSState) (now : ℤ) (t : ℚ)
    (hG : adjustQuality .GOOD t = .GOOD) (hE : adjustQuality .EASY t = .EASY) :
    (updateAfterReview s .GOOD now t).interval ≤
      (updateAfterReview s .EASY now t).interval ∧
    (updateAfterReview s .GOOD now t).easiness_factor ≤
      (updateAfterReview s .EASY now t).easiness_factor := by
  unfold updateAfterReview
  rw [hG, hE]
  dsimp only
  simp only [ReviewQuality.val]
  norm_num
  constructor
  · exact calculateNewInterval_good_le_easy s.interval (s.repetitions + 1)
      (calculateNewEasinessFactor_good_le_easy s.easiness_factor)
      (calculateNewEasinessFactor_bounds s.easiness_factor .GOOD).1
  · exact calculateNewEasinessFactor_good_le_easy s.easiness_factor

end SRS

namespace Review
lemma find?_updateFirst {α : Type} (p : α → Bool) (f : α → α)
    (hpf : ∀ x, p x = true → p (f x) = true) :
    ∀ l : List α, List.find? p (updateFirst p f l) = (List.find? p l).map f := by
  intro l
  induction l with
  | nil => rfl
  | cons x xs ih =>
    by_cases h : p x = true
    · simp [updateFirst, h, List.find?_cons_of_pos, hpf x h]
    · have h' : p x = false := by revert h; cases p x <;> simp
      simp [updateFirst, h', List.find?_cons_of_neg, ih]

lemma find?_updateFirst_const {α : Type} (p : α → Bool) (y : α) (hy : p y = true) :
    ∀ l : List α, List.find? p (updateFirst p (fun _ => y) l) = (List.find? p l).map (fun _ => y) :=
  find?_updateFirst p (fun _ => y) (fun _ _ => hy)


lemma markPool_vocab_ne {vid : ℕ} (p : GeneratedQuestion → Bool) (sid : ℕ) :
    ∀ (l : List GeneratedQuestion) (n : ℕ),
      (∀ q ∈ l, q.vocabulary_id ≠ vid) →
      ∀ q ∈ markPool p sid n l, q.vocabulary_id ≠ vid := by
  intro l
  induction l with
  | nil =>
    intro n _ q hq
    cases n <;> simp [markPool] at hq
  | cons x tl ih =>
    intro n h q hq
    have hx : x.vocabulary_id ≠ vid := h x (List.mem_cons_self x tl)
    have htl : ∀ r ∈ tl, r.vocabulary_id ≠ vid :=
      fun r hr => h r (List.mem_cons_of_mem x hr)
    cases n with
    | zero =>
      rw [markPool] at hq
      exact h q hq
    | succ m =>
      rw [markPool.eq_3] at hq
      by_cases hp : p x
      · rw [if_pos hp] at hq
        rcases List.mem_cons.mp hq with rfl | hq'
        · exact hx
        · exact ih m htl q hq'
      · rw [if_neg hp] at hq
        rcases List.mem_cons.mp hq with rfl | hq'
        · exact hx
        · exact ih (m + 1) htl q hq'

lemma getQuestionsForVocabulary_ok_table (gen : Generator)
    (questions : List GeneratedQuestion) (sid uid : ℕ) (w : Vocabulary)
    (count : ℕ) (ds : List Vocabulary) (nid : ℕ)
    (a b c : List GeneratedQuestion) (d : ℕ)
    (h : getQuestionsForVocabulary gen questions sid uid w count ds nid =
      .ok (a, b, c, d)) :
    b = markPool (inPool w.id) sid count questions := by
  unfold getQuestionsForVocabulary at h
  dsimp only at h
  split_ifs at h
  · cases hg : gen w (count -
        ((List.take count (List.filter (inPool w.id) questions)).map (fun q =>
          { q with session_id := some sid, is_used := true })).length)
        (calculateDifficulty w) ds with
    | error e =>
      rw [hg] at h
      exact absurd h (by simp)
    | ok qdatas =>
      rw [hg] at h
      simp only [Except.ok.injEq, Prod.mk.injEq] at h
      exact h.2.1.symm
  · simp only [Except.ok.injEq, Prod.mk.injEq] at h
    exact h.2.1.symm

lemma getQuestionsForVocabulary_error_of_empty_pool (gen : Generator)
    (questions : List GeneratedQuestion) (sid uid : ℕ) (v : Vocabulary)
    (count : ℕ) (ds : List Vocabulary) (nid : ℕ)
    (hpool : ∀ q ∈ questions, q.vocabulary_id ≠ v.id)
    (hcount : 0 < count)
    (hgen : ∀ (c : ℕ) (d : String) (dl : List Vocabulary),
      ∃ e, gen v c d dl = .error e) :
    ∃ e, getQuestionsForVocabulary gen questions sid uid v count ds nid =
      .error e := by
  have hfil : questions.filter (inPool v.id) = [] := by
    rw [List.filter_eq_nil_iff]
    intro q hq
    simp only [inPool, Bool.and_eq_true, beq_iff_eq]
    rintro ⟨⟨h1, _⟩, _⟩
    exact hpool q hq h1
  obtain ⟨e, hge⟩ := hgen count (calculateDifficulty v) ds
  refine ⟨e, ?_⟩
  unfold getQuestionsForVocabulary
  dsimp only
  rw [hfil]
  simp only [List.take_nil, List.map_nil, List.length_nil, Nat.sub_zero,
    List.nil_append]
  rw [if_pos hcount, hge]

lemma acquireAll_error_of_mem (gen : Generator) (sid uid qpv : ℕ)
    (ds : List Vocabulary) (v : Vocabulary)
    (hqpv : 0 < qpv)
    (hgen : ∀ (c : ℕ) (d : String) (dl : List Vocabulary),
      ∃ e, gen v c d dl = .error e) :
    ∀ (vs : List Vocabulary) (questions : List GeneratedQuestion) (nid : ℕ),
      v ∈ vs → (∀ q ∈ questions, q.vocabulary_id ≠ v.id) →
      ∃ e, acquireAll gen sid uid qpv ds vs questions nid = .error e := by
  intro vs
  induction vs with
  | nil =>
    intro _ _ hv
    exact absurd hv (List.not_mem_nil v)
  | cons w vs' ih =>
    intro questions nid hv hpool
    rcases List.mem_cons.mp hv with rfl | hv'
    · obtain ⟨e, he⟩ := getQuestionsForVocabulary_error_of_empty_pool gen questions
        sid uid v qpv ds nid hpool hqpv hgen
      exact ⟨e, by simp only [acquireAll, he]⟩
    · cases hget : getQuestionsForVocabulary gen questions sid uid w qpv ds nid with
      | error e => exact ⟨e, by simp only [acquireAll, hget]⟩
      | ok res =>
        obtain ⟨qs, questions', new_qs, nid'⟩ := res
        have htable := getQuestionsForVocabulary_ok_table gen questions sid uid w
          qpv ds nid qs questions' new_qs nid' hget
        have hpool' : ∀ q ∈ questions', q.vocabulary_id ≠ v.id := by
          rw [htable]
          exact markPool_vocab_ne (inPool w.id) sid questions qpv hpool
        obtain ⟨e, he⟩ := ih questions' nid' hv' hpool'
        exact ⟨e, by simp only [acquireAll, hget, he]⟩

end Review

namespace Pool
lemma oldest_mem (q : CachedQuestion) (rs : List CachedQuestion) :
    oldest q rs ∈ q :: rs := by
  induction rs generalizing q with
  | nil => simp [oldest]
  | cons r rs ih =>
    rw [oldest]
    split_ifs with h
    · have := ih r
      rcases List.mem_cons.mp this with h' | h'
      · rw [h']
        simp
      · simp [List.mem_cons, h']
    · have := ih q
      rcases List.mem_cons.mp this with h' | h'
      · rw [h']
        simp
      · simp [List.mem_cons, h']

lemma acquire_length_le (pool : List CachedQuestion) (c : AcquireChoice)
    (h : pool.length ≤ MAX_POOL_SIZE) :
    (acquire pool c).length ≤ MAX_POOL_SIZE := by
  match pool with
  | [] =>
    rw [acquire]
    split_ifs <;> simp [MAX_POOL_SIZE]
  | q0 :: rest =>
    rw [acquire]
    dsimp only
    cases hc : (q0 :: rest).filter (fun q => q.usage_count < USAGE_THRESHOLD) with
    | cons c0 cs =>
      simpa using h
    | nil =>
      simp only [List.length_map]
      by_cases hfull : MAX_POOL_SIZE ≤ (q0 :: rest).length
      · rw [if_pos hfull]
        have hlt : ((q0 :: rest).filter
            (fun q => q.id != (oldest q0 rest).id)).length < (q0 :: rest).length :=
          List.length_filter_lt_length_iff_exists.mpr
            ⟨oldest q0 rest, oldest_mem q0 rest, by simp⟩
        split_ifs with hg
        · simp only [List.length_append, List.length_map, List.length_singleton]
          omega
        · simp only [List.length_map]
          omega
      · rw [if_neg hfull]
        split_ifs with hg
        · simp only [List.length_append, List.length_map, List.length_singleton]
          omega
        · simp only [List.length_map]
          omega

end Pool

/-- Claim C1 (checked against the code): `complete_session` consults only
the existence of the session, never its status, so a second call on the
already-completed session 1 succeeds and applies the scheduler transition
to vocabulary 1 a second time (`repetitions` 1 → 2, `interval` 1 → 6),
instead of being rejected. -/
theorem C1_second_completion_not_rejected :
    C1_db.sessions.map Review.ReviewSession.status = ["completed"] ∧
    C1_db.vocabularies.map (fun v => (v.id, v.repetitions, v.interval)) = [(1, 1, 1)] ∧
    (Review.completeSession C1_db 1 20).isOk = true ∧
    ((Review.completeSession C1_db 1 20).toOption.map
        (fun p => p.2.vocabularies.map fun v => (v.id, v.repetitions, v.interval))) =
      some [(1, 2, 6)] := by
  refine ⟨rfl, rfl, ?_, ?_⟩ <;>
  · simp +decide [C1_db, Review.completeSession, Review.updateVocabularySRS,
      Review.deriveQuality, Review.updateFirst, SRS.mkSRSState, SRS.updateAfterReview,
      SRS.adjustQuality, SRS.calculateNewEasinessFactor, SRS.calculateNewInterval,
      SRS.pyRound, SRS.ratTrunc, SRS.MIN_EASINESS_FACTOR, SRS.MAX_EASINESS_FACTOR,
      SRS.ReviewQuality.val, Except.isOk, Except.toOption] <;>
    norm_num <;> try decide

/-- Claim C2: for every input state and every quality and elapsed-time
combination, the state returned by `update_after_review` has
`1.3 ≤ easiness_factor ≤ 2.5`; the initial state created for a new item
(`create_initial_state`, and any state built through
`SRSState.__post_init__`) also satisfies this bound. -/
theorem C2_easiness_factor_invariant :
    (∀ (s : SRS.SRSState) (q : SRS.ReviewQuality) (now : ℤ) (t : ℚ),
       13/10 ≤ (SRS.updateAfterReview s q now t).easiness_factor ∧
       (SRS.updateAfterReview s q now t).easiness_factor ≤ 5/2) ∧
    (∀ d : ℤ, 13/10 ≤ (SRS.createInitialState d).easiness_factor ∧
       (SRS.createInitialState d).easiness_factor ≤ 5/2) ∧
    (∀ (ef : ℚ) (i r : ℤ) (nx l : Option ℤ) (now : ℤ),
       13/10 ≤ (SRS.mkSRSState ef i r nx l now).easiness_factor ∧
       (SRS.mkSRSState ef i r nx l now).easiness_factor ≤ 5/2) := by
  have hmk : ∀ (ef : ℚ) (i r : ℤ) (nx l : Option ℤ) (now : ℤ),
      13/10 ≤ (SRS.mkSRSState ef i r nx l now).easiness_factor ∧
      (SRS.mkSRSState ef i r nx l now).easiness_factor ≤ 5/2 := by
    intro ef i r nx l now
    unfold SRS.mkSRSState
    dsimp only
    split_ifs with h1 h2
    · norm_num
    · norm_num
    · constructor <;> linarith
  refine ⟨?_, ?_, hmk⟩
  · intro s q now t
    exact SRS.calculateNewEasinessFactor_bounds s.easiness_factor _
  · intro d
    exact hmk _ _ _ _ _ _

/-- Claim C7: starting from the initial state (`ef = 2.5`, `interval = 0`,
`repetitions = 0`) and applying the scheduler transition with qualities
GOOD, GOOD, EASY in sequence, each review happening at the previously
scheduled date with no latency signal, the intervals are exactly 1, then
exactly 6, then 20 (strictly greater than 6), and repetitions ends at 3. -/
theorem C7_three_review_scenario :
    ((SRS.simulateReviewSequence (SRS.createInitialState 0)
        [.GOOD, .GOOD, .EASY]).map SRS.SRSState.interval = [1, 6, 20]) ∧
    (6 : ℤ) < 20 ∧
    ((SRS.simulateReviewSequence (SRS.createInitialState 0)
        [.GOOD, .GOOD, .EASY]).map SRS.SRSState.repetitions = [1, 2, 3]) := by
  refine ⟨?_, by norm_num, ?_⟩ <;>
  · simp [SRS.simulateReviewSequence, SRS.updateAfterReview, SRS.createInitialState,
      SRS.mkSRSState, SRS.adjustQuality, SRS.calculateNewEasinessFactor,
      SRS.calculateNewInterval, SRS.pyRound, SRS.ratTrunc, SRS.DEFAULT_EASINESS_FACTOR,
      SRS.MIN_EASINESS_FACTOR, SRS.MAX_EASINESS_FACTOR, SRS.ReviewQuality.val] <;>
    norm_num [Int.fract]

/-- Claim C9: a scheduler transition whose speed-adjusted quality is HARD
returns a state with `repetitions = 0` and `interval = 0`: repetitions is
reset before the interval is computed, so the halve-the-old-interval
branch of the HARD interval rule is unreachable through
`update_after_review`. -/
theorem C9_adjusted_hard_resets (s : SRS.SRSState) (q : SRS.ReviewQuality)
    (now : ℤ) (t : ℚ) (h : SRS.adjustQuality q t = .HARD) :
    (SRS.updateAfterReview s q now t).repetitions = 0 ∧
    (SRS.updateAfterReview s q now t).interval = 0 := by
  unfold SRS.updateAfterReview
  rw [h]
  simp [SRS.calculateNewInterval, SRS.ReviewQuality.val]

/-- Witness for C9: the item `(ef = 2, interval = 30, repetitions = 5)`
reviewed with quality HARD (adjusted quality HARD) ends with
`repetitions = 0` and `interval = 0`, not `max 1 (30 / 2) = 15`. -/
theorem C9_adjusted_hard_resets_witness :
    SRS.adjustQuality .HARD 0 = .HARD ∧
    ((SRS.updateAfterReview ⟨2, 30, 5, 0, none⟩ .HARD 0 0).repetitions = 0 ∧
     (SRS.updateAfterReview ⟨2, 30, 5, 0, none⟩ .HARD 0 0).interval = 0) :=
  ⟨rfl, C9_adjusted_hard_resets _ _ _ _ rfl⟩

/-- Claim C3 (amended behaviour): if the question-producing capability
raises while acquiring questions for a selected item that has no pooled
instances (and at least one question is requested per item), the whole
`create_session` call raises instead of skipping the item, and no session
or question instance is persisted — the transaction is never committed,
so no updated store is produced. -/
theorem C3_generation_failure_aborts_creation (gen : Review.Generator)
    (shuffle : List Review.GeneratedQuestion → List Review.GeneratedQuestion)
    (db : Review.DB) (uid : ℕ) (mode : String) (maxv qpv : ℕ) (now : ℤ)
    (sid nid : ℕ) (v : Review.Vocabulary)
    (hv : v ∈ Review.getVocabulariesForReview db uid mode maxv now)
    (hpool : ∀ q ∈ db.questions, q.vocabulary_id ≠ v.id)
    (hqpv : 0 < qpv)
    (hgen : ∀ (c : ℕ) (d : String) (dl : List Review.Vocabulary),
      ∃ e, gen v c d dl = .error e) :
    ∃ e, Review.createSession gen shuffle db uid mode maxv qpv now sid nid =
      .error e := by
  obtain ⟨e, herr⟩ := Review.acquireAll_error_of_mem gen sid uid qpv
    (Review.getVocabulariesForReview db uid mode maxv now) v hqpv hgen
    (Review.getVocabulariesForReview db uid mode maxv now) db.questions nid hv hpool
  refine ⟨e, ?_⟩
  unfold Review.createSession
  dsimp only
  rw [if_neg, herr]
  intro hempty
  rw [List.isEmpty_iff] at hempty
  rw [hempty] at hv
  exact List.not_mem_nil v hv

/-- Counterexample to claim C3 as stated: with two due vocabularies and an
empty pool, a generator that raises for vocabulary 1 but succeeds for
vocabulary 2 makes the whole `create_session` call fail with the
generation error; no session with the remaining item's questions is
returned. -/
theorem C3_no_item_skip_counterexample :
    Review.createSession C3_gen id C3_db 1 "due" 4 5 10 1 100 =
      .error "GenerationError" := rfl

/-- Witness for C3 (amended): the hypotheses of
`C3_generation_failure_aborts_creation` hold for vocabulary 1 of `C3_db`
with generator `C3_gen`, and the conclusion follows. -/
theorem C3_generation_failure_aborts_creation_witness :
    C3_vocab1 ∈ Review.getVocabulariesForReview C3_db 1 "due" 4 10 ∧
    (∀ q ∈ C3_db.questions, q.vocabulary_id ≠ C3_vocab1.id) ∧
    0 < 5 ∧
    (∃ e, Review.createSession C3_gen id C3_db 1 "due" 4 5 10 1 100 =
      .error e) :=
  ⟨List.Mem.head _,
   fun q hq => absurd hq (List.not_mem_nil q),
   by decide,
   C3_generation_failure_aborts_creation C3_gen id C3_db 1 "due" 4 5 10 1 100
     C3_vocab1 (List.Mem.head _)
     (fun q hq => absurd hq (List.not_mem_nil q))
     (by decide)
     (fun c d dl => ⟨"GenerationError", rfl⟩)⟩

/-- Claim C4 (amended behaviour): only the quiz-path acquire step
enforces the pool bound: starting from a per-item pool of at most
`MAX_POOL_SIZE = 5` persisted instances, any sequence of acquire
operations (with arbitrary random draws and generation outcomes) keeps
the count at most 5.  Pre-generation has no such check and exceeds the
bound (see the counterexample). -/
theorem C4_acquire_preserves_pool_bound (ops : List Pool.AcquireChoice)
    (pool : List Pool.CachedQuestion)
    (h : pool.length ≤ Pool.MAX_POOL_SIZE) :
    (ops.foldl Pool.acquire pool).length ≤ Pool.MAX_POOL_SIZE := by
  induction ops generalizing pool with
  | nil => simpa using h
  | cons c cs ih => exact ih (Pool.acquire pool c) (Pool.acquire_length_le pool c h)

/-- Witness for C4 (amended): an acquire on the full exhausted pool
(which evicts the oldest, recycles two rows, and persists a fresh
instance) keeps the count at `MAX_POOL_SIZE`. -/
theorem C4_acquire_preserves_pool_bound_witness :
    C4_pool.length ≤ Pool.MAX_POOL_SIZE ∧
    (([{ pick := 0, recycle_ids := [2, 3], gen_ok := true, new_id := 6,
         new_created_at := 9 }] : List Pool.AcquireChoice).foldl
       Pool.acquire C4_pool).length ≤ Pool.MAX_POOL_SIZE :=
  ⟨by decide,
   C4_acquire_preserves_pool_bound
     [{ pick := 0, recycle_ids := [2, 3], gen_ok := true, new_id := 6,
        new_created_at := 9 }] C4_pool (by decide)⟩

/-- Counterexample to claim C4 as stated: one pre-generation call on an
empty pool persists `QUESTIONS_PER_VOCAB = 10` instances for the item,
exceeding `MAX_POOL_SIZE = 5`. -/
theorem C4_pregenerate_exceeds_bound :
    (Pool.preGenerate [] 1 0 Pool.QUESTIONS_PER_VOCAB).length = 10 ∧
    Pool.MAX_POOL_SIZE = 5 ∧
    ¬ (Pool.preGenerate [] 1 0 Pool.QUESTIONS_PER_VOCAB).length ≤
        Pool.MAX_POOL_SIZE := by
  refine ⟨?_, rfl, ?_⟩ <;>
    simp [Pool.preGenerate, Pool.QUESTIONS_PER_VOCAB, Pool.MAX_POOL_SIZE]

/-- Claim C5: the quality fed to the scheduler at session completion is
AGAIN whenever `is_correct` is false regardless of latency; for a correct
answer it is EASY below 5000 ms, HARD above 15000 ms and GOOD otherwise;
in particular a correct answer at 3000 ms yields EASY. -/
theorem C5_quality_derivation :
    (∀ ms : Option ℤ, Review.deriveQuality false ms = .AGAIN) ∧
    (∀ ms : Option ℤ,
      (Review.deriveQuality true ms = .EASY ↔ ms.getD 0 < 5000) ∧
      (Review.deriveQuality true ms = .HARD ↔ 15000 < ms.getD 0) ∧
      (Review.deriveQuality true ms = .GOOD ↔
        5000 ≤ ms.getD 0 ∧ ms.getD 0 ≤ 15000)) ∧
    Review.deriveQuality true (some 3000) = .EASY := by
  have key : ∀ m : ℤ,
      (((m : ℚ) / 1000 < 5) ↔ m < 5000) ∧ ((15 < (m : ℚ) / 1000) ↔ 15000 < m) := by
    intro m
    constructor
    · rw [div_lt_iff₀ (by norm_num : (0:ℚ) < 1000)]
      constructor <;> intro h <;> exact_mod_cast h
    · rw [lt_div_iff₀ (by norm_num : (0:ℚ) < 1000)]
      constructor <;> intro h <;> exact_mod_cast h
  refine ⟨fun ms => rfl, fun ms => ?_, ?_⟩
  · obtain ⟨k5, k15⟩ := key (ms.getD 0)
    unfold Review.deriveQuality
    dsimp only
    simp only [eq_self_iff_true, if_true]
    split_ifs with ha hb
    · have h1 : ms.getD 0 < 5000 := k5.mp ha
      refine ⟨by simp [h1], ?_, ?_⟩ <;> simp <;> omega
    · have h1 : ¬ ms.getD 0 < 5000 := fun hc => ha (k5.mpr hc)
      have h2 : 15000 < ms.getD 0 := k15.mp hb
      refine ⟨by simp; omega, by simp [h2], by simp; omega⟩
    · have h1 : ¬ ms.getD 0 < 5000 := fun hc => ha (k5.mpr hc)
      have h2 : ¬ 15000 < ms.getD 0 := fun hc => hb (k15.mpr hc)
      refine ⟨by simp; omega, by simp; omega, by simp; omega⟩
  · norm_num [Review.deriveQuality]

/-- Claim C6: for every fixed starting state and the same elapsed-time
argument for both runs, the transition with quality EASY produces an
interval at least as large as the one produced with quality GOOD, and an
easiness factor at least as large as the one produced with quality GOOD. -/
theorem C6_easy_dominates_good (s : SRS.SRSState) (now : ℤ) (t : ℚ) :
    (SRS.updateAfterReview s .GOOD now t).interval ≤
      (SRS.updateAfterReview s .EASY now t).interval ∧
    (SRS.updateAfterReview s .GOOD now t).easiness_factor ≤
      (SRS.updateAfterReview s .EASY now t).easiness_factor := by
  by_cases h0 : t > 0
  · by_cases h5 : t < 5
    · -- fast correct answer: both adjusted qualities are EASY
      have hG : SRS.adjustQuality .GOOD t = .EASY := by
        simp [SRS.adjustQuality, SRS.ReviewQuality.val, h0, h5]
      have hE : SRS.adjustQuality .EASY t = .EASY := by
        simp [SRS.adjustQuality, SRS.ReviewQuality.val, h0, h5]
      unfold SRS.updateAfterReview
      rw [hG, hE]
      exact ⟨le_refl _, le_refl _⟩
    · by_cases h15 : t > 15
      · -- slow correct answer: GOOD is demoted to HARD, EASY to GOOD
        have hG : SRS.adjustQuality .GOOD t = .HARD := by
          simp [SRS.adjustQuality, SRS.ReviewQuality.val, h0, h5, h15]
        have hE : SRS.adjustQuality .EASY t = .GOOD := by
          simp [SRS.adjustQuality, SRS.ReviewQuality.val, h0, h5, h15]
        unfold SRS.updateAfterReview
        rw [hG, hE]
        dsimp only
        simp only [SRS.ReviewQuality.val]
        norm_num
        constructor
        · have hL : SRS.calculateNewInterval s.interval 0
              (SRS.calculateNewEasinessFactor s.easiness_factor .HARD) .HARD = 0 := by
            simp [SRS.calculateNewInterval]
          rw [hL]
          exact SRS.calculateNewInterval_good_nonneg s.interval (s.repetitions + 1) _
        · exact SRS.calculateNewEasinessFactor_hard_le_good s.easiness_factor
      · -- medium latency: qualities pass through unadjusted
        exact SRS.updateAfterReview_good_le_easy_of_noadjust s now t
          (by simp [SRS.adjustQuality, SRS.ReviewQuality.val, h0, h5, h15])
          (by simp [SRS.adjustQuality, SRS.ReviewQuality.val, h0, h5, h15])
  · -- no valid latency signal: qualities pass through unadjusted
    exact SRS.updateAfterReview_good_le_easy_of_noadjust s now t
      (by simp [SRS.adjustQuality, SRS.ReviewQuality.val, h0])
      (by simp [SRS.adjustQuality, SRS.ReviewQuality.val, h0])

/-- Claim C8 (amended behaviour): for a function-word item with a
non-empty stored context sentence, MCQ generation returns exactly 4
options containing the correct answer, whatever distractors are sampled
(in particular with a single available distractor, where the list is
padded) and however the options are shuffled.  The padding however reuses
the one literal string "other", so padded options can be duplicates of
each other (see the counterexample). -/
theorem C8_mcq_exactly_four_options (word : String) (contexts : List String)
    (distractor_words sample : List String)
    (shuffle : List String → List String) (s : String)
    (hctx : contexts.head? = some s) (hs : s ≠ "")
    (hsample : sample.length =
      min 3 ((distractor_words.filter (fun w => w != word)).length))
    (hshuffle : ∀ l, List.Perm (shuffle l) l) :
    ∃ snap, MCQ.generate word contexts sample shuffle = .mcq snap ∧
      snap.options.length = 4 ∧ word ∈ snap.options ∧
      snap.correct_answer = word := by
  have hbase : ∃ rest : List String,
      (match MCQ.confusionGroup word with
        | some confusion_words => [word] ++ confusion_words.take 3
        | none => [word] ++ sample) = word :: rest ∧ rest.length ≤ 3 := by
    cases hcg : MCQ.confusionGroup word with
    | some confusion_words =>
      refine ⟨confusion_words.take 3, rfl, ?_⟩
      rw [List.length_take]
      exact min_le_left _ _
    | none =>
      refine ⟨sample, rfl, ?_⟩
      rw [hsample]
      exact min_le_left _ _
  obtain ⟨rest, hb, hr⟩ := hbase
  unfold MCQ.generate
  rw [hctx]
  dsimp only
  rw [if_neg hs, hb]
  refine ⟨_, rfl, ?_, ?_, rfl⟩
  · have hperm := (hshuffle ((word :: rest) ++
      List.replicate (4 - (word :: rest).length) "other")).length_eq
    rw [hperm]
    simp only [List.length_append, List.length_replicate, List.length_cons]
    omega
  · rw [List.Perm.mem_iff (hshuffle _)]
    simp

/-- Witness for C8 (amended): a word with no confusion-pair entry, one
stored context sentence and a single available distractor still yields
exactly four shuffled options containing the word. -/
theorem C8_mcq_exactly_four_options_witness :
    (["i went xyz home"] : List String).head? = some "i went xyz home" ∧
    "i went xyz home" ≠ "" ∧
    (["abc"] : List String).length =
      min 3 (((["abc"] : List String).filter (fun w => w != "xyz")).length) ∧
    (∃ snap, MCQ.generate "xyz" ["i went xyz home"] ["abc"] id = .mcq snap ∧
      snap.options.length = 4 ∧ "xyz" ∈ snap.options ∧
      snap.correct_answer = "xyz") :=
  ⟨rfl, by decide, by decide,
   C8_mcq_exactly_four_options "xyz" ["i went xyz home"] ["abc"] ["abc"] id
     "i went xyz home" rfl (by decide) (by decide) (fun l => List.Perm.refl l)⟩

/-- Counterexample to claim C8 as stated: for the word "xyz" (no
confusion-pair entry) with one stored context sentence and a single
available distractor, the generated option list is
["xyz", "abc", "other", "other"] — exactly four options, but the two
padded entries are identical, so the options do look like duplicates of
each other. -/
theorem C8_padding_duplicates_counterexample :
    (MCQ.generate "xyz" ["i went xyz home"] ["abc"] id).optionList =
      some ["xyz", "abc", "other", "other"] ∧
    ¬ (["xyz", "abc", "other", "other"] : List String).Nodup :=
  ⟨rfl, by decide⟩

/-- Claim C10: `submit_answer` raises exactly when no question instance
with the given id exists; it checks neither that the question is
unanswered nor that its session is still in progress, so a submission for
an already-answered instance of a completed session succeeds and
overwrites the stored `user_answer`, `is_correct`, `time_spent_ms` and
`answer_change_count`. -/
theorem C10_submit_answer_overwrites (db : Review.DB) (qid : ℕ) (ans : String)
    (ms cnt : ℤ) :
    ((∃ e, Review.submitAnswer db qid ans ms cnt = .error e) ↔
      db.questions.find? (fun q => q.question_instance_id == qid) = none) ∧
    (∀ q, db.questions.find? (fun q => q.question_instance_id == qid) = some q →
      ∃ res db2, Review.submitAnswer db qid ans ms cnt = .ok (res, db2) ∧
        db2.sessions = db.sessions ∧
        db2.vocabularies = db.vocabularies ∧
        db2.questions.find? (fun r => r.question_instance_id == qid) =
          some { q with
            user_answer := some ans,
            is_correct := some (Review.normalizeAnswer ans ==
              Review.normalizeAnswer q.correct_answer),
            time_spent_ms := some ms,
            answer_change_count := some cnt }) := by
  constructor
  · constructor
    · rintro ⟨e, he⟩
      cases hfind : db.questions.find? (fun q => q.question_instance_id == qid) with
      | none => rfl
      | some q =>
        rw [Review.submitAnswer, hfind] at he
        exact absurd he (by simp)
    · intro hfind
      exact ⟨"Question instance not found", by rw [Review.submitAnswer, hfind]⟩
  · intro q hq
    have hpq := List.find?_some hq
    refine ⟨{ question_instance_id := qid,
              is_correct := Review.normalizeAnswer ans ==
                Review.normalizeAnswer q.correct_answer,
              correct_answer := q.correct_answer,
              explanation := q.explanation },
            { db with questions :=
                (Review.updateFirst (fun r => r.question_instance_id == qid)
                  (fun _ => { q with
                    user_answer := some ans,
                    is_correct := some (Review.normalizeAnswer ans ==
                      Review.normalizeAnswer q.correct_answer),
                    time_spent_ms := some ms,
                    answer_change_count := some cnt }) db.questions) },
            ?_, rfl, rfl, ?_⟩
    · rw [Review.submitAnswer, hq]
    · rw [Review.find?_updateFirst_const (fun r => r.question_instance_id == qid) _
        (by exact hpq) db.questions, hq]
      rfl

/-- Witness for C10: resubmitting question 7 of the already-completed
session succeeds and overwrites the previously stored answer fields. -/
theorem C10_submit_answer_overwrites_witness :
    C10_db.questions.find? (fun q => q.question_instance_id == 7) =
      some (C10_db.questions.get ⟨0, by simp [C10_db]⟩) ∧
    (∃ res db2, Review.submitAnswer C10_db 7 " AT " 3000 2 = .ok (res, db2) ∧
      db2.sessions = C10_db.sessions ∧
      db2.vocabularies = C10_db.vocabularies ∧
      db2.questions.find? (fun r => r.question_instance_id == 7) =
        some { (C10_db.questions.get ⟨0, by simp [C10_db]⟩) with
          user_answer := some " AT ",
          is_correct := some (Review.normalizeAnswer " AT " ==
            Review.normalizeAnswer
              (C10_db.questions.get ⟨0, by simp [C10_db]⟩).correct_answer),
          time_spent_ms := some 3000,
          answer_change_count := some 2 }) :=
  ⟨rfl, (C10_submit_answer_overwrites C10_db 7 " AT " 3000 2).2
    (C10_db.questions.get ⟨0, by simp [C10_db]⟩) rfl⟩
